import Mathlib

/-!
Verification of the reward points ledger and redemption engine.

Shallow embedding of two module copies of the reward subsystem:
* `backend` — src/backend/services/reward_service.py (RewardService) and
  src/backend/routers/rewards.py (create_reward_event, redeem_points),
  with the SQLAlchemy models of src/backend/database.py
  (RewardEvent rows, RewardAccount rows).
* `ev` — src/ev-platform/backend/app/api/rewards.py (create_reward_event,
  redeem_rewards) with src/ev-platform/backend/app/models/reward.py
  (Reward rows, RewardRule rows).

Database tables are embedded as Lean lists in insertion order; SQLAlchemy
filter queries become list filters; timestamps are integers (seconds);
point quantities are integers (they are Integer columns and may be
negative, since the request schemas do not validate sign).

The Python service computes int(base_points * multiplier) with
multiplier in 1.0 / 1.2 / 1.5 over IEEE doubles.  The only bases the
fixed POINTS_RULES table feeds into a multiplier are 10 and 25, and for
those the double products (12.0, 30.0, 37.5) round to the exact rational
values, so the embedding uses exact integer arithmetic
(base * 6 / 5, base * 3 / 2) which agrees with the source on every
reachable input.
-/

namespace Backend

/-- A row of the reward_events table (src/backend/database.py, RewardEvent).
Only the columns the reward logic reads are carried. -/
structure RewardEvent where
  user_id : Nat
  event_type : String
  points_earned : Int
  created_at : Int
deriving Repr, DecidableEq

/-- A row of the reward_accounts table (src/backend/database.py,
RewardAccount); points_balance defaults to 0 and tier to "bronze". -/
structure RewardAccount where
  points_balance : Int
  tier : String
deriving Repr, DecidableEq

/-- POINTS_RULES dict of RewardService; .get(event_type, 0) supplies the
default 0 for unknown event types. -/
def POINTS_RULES : String → Int
  | "ride_completed" => 10
  | "parcel_delivered" => 15
  | "rental_completed" => 25
  | "rental_on_time" => 10
  | "kyc_completed" => 100
  | "first_ride" => 50
  | "referral" => 200
  | "review_submitted" => 5
  | _ => 0

/-- DAILY_CAPS dict of RewardService; .get returns none for event types
without a cap.  All configured caps are nonzero, so Python truthiness of
the looked-up value coincides with this Option being some. -/
def DAILY_CAPS : String → Option Int
  | "ride_completed" => some 500
  | "parcel_delivered" => some 300
  | "rental_completed" => some 200
  | "review_submitted" => some 25
  | _ => none

/-- TIER_THRESHOLDS dict of RewardService.  The dict is only indexed at
the four tier names; other strings are unreachable in the source. -/
def TIER_THRESHOLDS : String → Int
  | "platinum" => 15000
  | "gold" => 5000
  | "silver" => 1000
  | _ => 0

/-- The metadata dict fields the reward logic reads:
metadata.get("duration_hours", 0) and metadata.get("vehicle_type"). -/
structure Meta where
  duration_hours : Int := 0
  vehicle_type : Option String := none
deriving Repr, DecidableEq

/-- Sum of a projection over the rows passing a filter: the embedding of
db.query(...).filter(...) followed by summing a column. -/
def sumBy {α : Type} (pts : α → Int) (P : α → Bool) (l : List α) : Int :=
  ((l.filter P).map pts).sum

/-- The multiplier block of RewardService.calculate_points
(reward_service.py lines 71-87): multiplier starts at 1.0, rental
duration and ride vehicle-type bonuses, then int(base_points * multiplier).
Exact integer arithmetic; see the header note on floats. -/
def applyMultiplier (event_type : String) (metadata : Option Meta) (base_points : Int) : Int :=
  if event_type = "rental_completed" then
    match metadata with
    | some m =>
        if m.duration_hours ≥ 24 then base_points * 3 / 2
        else if m.duration_hours ≥ 8 then base_points * 6 / 5
        else base_points
    | none => base_points
  else if event_type = "ride_completed" then
    match metadata with
    | some m =>
        if m.vehicle_type = some "scooter" ∨ m.vehicle_type = some "bike" then
          base_points * 6 / 5
        else base_points
    | none => base_points
  else base_points

/-- The daily-window query of calculate_points: events of this user and
event_type created today (created_at ≥ start of the current UTC day),
summing points_earned. -/
def todaySum (db : List RewardEvent) (uid : Nat) (event_type : String) (todayStart : Int) : Int :=
  sumBy (·.points_earned)
    (fun e => e.user_id == uid && e.event_type == event_type && decide (e.created_at ≥ todayStart))
    db

/-- RewardService.calculate_points (reward_service.py lines 44-87).
Base points from POINTS_RULES (default 0); nonpositive base returns 0;
if a daily cap is configured and today's same-type sum plus the base
would exceed it, return max(0, cap - today_points) immediately (the
multiplier block is skipped); otherwise apply the metadata multiplier. -/
def calculate_points (event_type : String) (metadata : Option Meta) (uid : Nat)
    (db : List RewardEvent) (todayStart : Int) : Int :=
  let base_points := POINTS_RULES event_type
  if base_points ≤ 0 then 0
  else
    match DAILY_CAPS event_type with
    | some daily_cap =>
        let today_points := todaySum db uid event_type todayStart
        if today_points + base_points > daily_cap then max 0 (daily_cap - today_points)
        else applyMultiplier event_type metadata base_points
    | none => applyMultiplier event_type metadata base_points

/-- Search order of the loop in RewardService.calculate_tier. -/
def tierSearchOrder : List String := ["platinum", "gold", "silver", "bronze"]

/-- RewardService.calculate_tier (reward_service.py lines 89-95): first
tier in descending order whose threshold the balance reaches, with the
fallback return "bronze". -/
def calculate_tier (points_balance : Int) : String :=
  match tierSearchOrder.find? (fun tier => decide (points_balance ≥ TIER_THRESHOLDS tier)) with
  | some tier => tier
  | none => "bronze"

/-- Result dict of RewardService.check_fraud. -/
structure FraudCheck where
  is_fraud : Bool
  reason : Option String
deriving Repr, DecidableEq

/-- The velocity query of check_fraud: count of points_redeemed events of
this user created within the trailing hour. -/
def recentRedemptionCount (db : List RewardEvent) (uid : Nat) (now : Int) : Nat :=
  (db.filter (fun e =>
    e.user_id == uid && e.event_type == "points_redeemed" && decide (e.created_at ≥ now - 3600))).length

/-- The volume query of check_fraud: sum of points_earned over this
user's events created within the trailing 24 hours. -/
def dailyPointsSum (db : List RewardEvent) (uid : Nat) (now : Int) : Int :=
  sumBy (·.points_earned)
    (fun e => e.user_id == uid && decide (e.created_at ≥ now - 86400))
    db

/-- RewardService.check_fraud (reward_service.py lines 97-130): deny on
at least 5 redemptions within the trailing hour, else deny on more than
1000 points within the trailing day, else allow. -/
def check_fraud (uid : Nat) (db : List RewardEvent) (now : Int) : FraudCheck :=
  if recentRedemptionCount db uid now ≥ 5 then
    ⟨true, some "Too many redemptions in short time"⟩
  else if dailyPointsSum db uid now > 1000 then
    ⟨true, some "Suspicious point accumulation pattern"⟩
  else ⟨false, none⟩

/-- The per-user database state the rewards router reads and writes: the
reward_accounts row of this user (none until first created) and the
reward_events table. -/
structure State where
  account : Option RewardAccount
  events : List RewardEvent
deriving Repr, DecidableEq

/-- The HTTPException outcomes of the rewards router. -/
inductive ApiError where
  /-- 400 "No points earned for this event" -/
  | noPointsEarned
  /-- 400 "Insufficient points balance" -/
  | insufficientBalance
  /-- 403 "Redemption blocked: ..." -/
  | fraudBlocked (reason : Option String)
deriving Repr, DecidableEq

/-- Response body of POST /redeem. -/
structure RedemptionResponse where
  success : Bool
  points_redeemed : Int
  new_balance : Int
deriving Repr, DecidableEq

/-- POST /events (routers/rewards.py lines 23-98): compute points via the
service; reject nonpositive results with 400; append the event row;
create the account row (tier column default "bronze") or add to its
balance; recompute the tier from the updated balance and store it when
changed. -/
def create_reward_event (st : State) (uid : Nat) (event_type : String)
    (metadata : Option Meta) (now todayStart : Int) :
    Except ApiError (State × RewardEvent) :=
  let points_earned := calculate_points event_type metadata uid st.events todayStart
  if points_earned ≤ 0 then .error .noPointsEarned
  else
    let reward_event : RewardEvent :=
      { user_id := uid, event_type := event_type, points_earned := points_earned, created_at := now }
    let reward_account : RewardAccount :=
      match st.account with
      | none => { points_balance := points_earned, tier := "bronze" }
      | some acct => { acct with points_balance := acct.points_balance + points_earned }
    let new_tier := calculate_tier reward_account.points_balance
    let reward_account :=
      if new_tier ≠ reward_account.tier then { reward_account with tier := new_tier }
      else reward_account
    .ok ({ account := some reward_account, events := st.events ++ [reward_event] }, reward_event)

/-- POST /redeem (routers/rewards.py lines 119-178): 400 when the account
is missing or its balance is below the requested points; then the fraud
gate (403 on deny); then subtract the points from the balance.  No
reward_events row is written and the tier is not recomputed. -/
def redeem_points (st : State) (uid : Nat) (points : Int) (now : Int) :
    Except ApiError (State × RedemptionResponse) :=
  match st.account with
  | none => .error .insufficientBalance
  | some acct =>
    if acct.points_balance < points then .error .insufficientBalance
    else
      let fraud_check := check_fraud uid st.events now
      if fraud_check.is_fraud then .error (.fraudBlocked fraud_check.reason)
      else
        let acct := { acct with points_balance := acct.points_balance - points }
        .ok ({ st with account := some acct },
             { success := true, points_redeemed := points, new_balance := acct.points_balance })

/-- One request to POST /events or POST /redeem, used to replay a
history of operations through the router. -/
inductive Op where
  | accrue (event_type : String) (metadata : Option Meta)
  | redeem (points : Int)
deriving Repr, DecidableEq

/-- Replay a list of requests of one user through the router, all issued
at the same instant `now` of the UTC day starting at `todayStart`; a
rejected request (HTTPException) leaves the database unchanged. -/
def runOps (uid : Nat) (now todayStart : Int) : List Op → State → State
  | [], st => st
  | op :: rest, st =>
    let st1 :=
      match op with
      | .accrue event_type metadata =>
          match create_reward_event st uid event_type metadata now todayStart with
          | .ok (st2, _) => st2
          | .error _ => st
      | .redeem points =>
          match redeem_points st uid points now with
          | .ok (st2, _) => st2
          | .error _ => st
    runOps uid now todayStart rest st1

/-- Lifetime points in the sense of the spec: the sum of all positive
point deltas ever recorded for the user. -/
def lifetimePoints (db : List RewardEvent) (uid : Nat) : Int :=
  sumBy (·.points_earned)
    (fun e => e.user_id == uid && decide (e.points_earned > 0))
    db

/-- Position of each tier in the ascending tier ladder
bronze < silver < gold < platinum. -/
def tierRank : String → Nat
  | "silver" => 1
  | "gold" => 2
  | "platinum" => 3
  | _ => 0

end Backend

namespace Ev

/-- Statuses of app/models/reward.py RewardStatus. -/
inductive RewardStatus where
  | pending | accrued | redeemed | expired | cancelled
deriving Repr, DecidableEq

/-- A row of the rewards table (app/models/reward.py, Reward).  Only the
columns the accrual and redemption routes read or write are carried; the
monetary redemption fields (redemption_amount, redemption_currency,
redeemed_at) are written but never read back by the embedded routes and
are omitted. -/
structure Reward where
  id : Nat
  user_id : Nat
  event_type : String
  points_earned : Int
  points_balance : Int
  status : RewardStatus
  is_expired : Bool
  created_at : Int
deriving Repr, DecidableEq

/-- A row of the reward_rules table (app/models/reward.py, RewardRule);
the fields the accrual route reads. -/
structure RewardRule where
  id : Nat
  event_type : String
  points_per_event : Int
  daily_cap : Option Int
  monthly_cap : Option Int
  is_active : Bool
  priority : Int
deriving Repr, DecidableEq

/-- The HTTPException outcomes of the ev-platform rewards routes. -/
inductive EvError where
  /-- 400 "No reward rule found for this event type" -/
  | noRule
  /-- 400 "Daily reward cap exceeded" -/
  | dailyCapExceeded
  /-- 400 "Monthly reward cap exceeded" -/
  | monthlyCapExceeded
  /-- 400 "Insufficient points for redemption" -/
  | insufficientPoints
deriving Repr, DecidableEq

/-- The rule query of create_reward_event (api/rewards.py lines 36-39):
active rules of this event type ordered by priority descending, first
row.  Among equal priorities the earliest row is kept (stable order). -/
def resolveRule (rules : List RewardRule) (event_type : String) : Option RewardRule :=
  (rules.filter (fun r => r.event_type == event_type && r.is_active)).foldl
    (fun best r =>
      match best with
      | none => some r
      | some b => if r.priority > b.priority then some r else some b)
    none

/-- `if rule.daily_cap:` truthiness — a missing cap and a cap of 0 both
skip the check; otherwise the check fires when the prior window sum plus
the incoming points exceeds the cap. -/
def capViolated (cap : Option Int) (windowSum : Int) (points_earned : Int) : Bool :=
  match cap with
  | some c => c != 0 && decide (windowSum + points_earned > c)
  | none => false

/-- Window sum of the cap queries: points_earned summed over this user's
rows of the same event type created at or after the window start. -/
def windowSum (db : List Reward) (uid : Nat) (event_type : String) (since : Int) : Int :=
  Backend.sumBy (·.points_earned)
    (fun r => r.user_id == uid && r.event_type == event_type && decide (r.created_at ≥ since))
    db

/-- The balance query of the accrual route (api/rewards.py lines 80-83):
sum over this user's rows with status ACCRUED — with no expiry filter. -/
def accruedSum (db : List Reward) (uid : Nat) : Int :=
  Backend.sumBy (·.points_earned)
    (fun r => r.user_id == uid && r.status == RewardStatus.accrued)
    db

/-- The available-points query of the balance and redemption routes
(api/rewards.py lines 162-166 and 224-228): status ACCRUED and not
expired. -/
def availablePoints (db : List Reward) (uid : Nat) : Int :=
  Backend.sumBy (·.points_earned)
    (fun r => r.user_id == uid && r.status == RewardStatus.accrued && !r.is_expired)
    db

/-- Replay of the whole ledger of a user: sum of points_earned over all
of the rows, in creation order. -/
def replaySum (db : List Reward) (uid : Nat) : Int :=
  Backend.sumBy (·.points_earned) (fun r => r.user_id == uid) db

/-- POST /events of the ev-platform copy (api/rewards.py lines 20-125):
resolve the highest-priority active rule (400 when none); reject — not
clip — on a daily or monthly cap violation, comparing the window sum
plus the request's points_earned against the cap; then append a row
whose points_balance is the current ACCRUED sum plus the awarded points.
The awarded points come from the request body, not from the rule. -/
def create_reward_event (rules : List RewardRule) (db : List Reward) (uid : Nat)
    (event_type : String) (points_earned : Int)
    (now todayStart monthStart : Int) (newId : Nat) :
    Except EvError (List Reward × Reward) :=
  match resolveRule rules event_type with
  | none => .error .noRule
  | some rule =>
    if capViolated rule.daily_cap (windowSum db uid event_type todayStart) points_earned then
      .error .dailyCapExceeded
    else if capViolated rule.monthly_cap (windowSum db uid event_type monthStart) points_earned then
      .error .monthlyCapExceeded
    else
      let current_balance := accruedSum db uid
      let new_reward : Reward :=
        { id := newId, user_id := uid, event_type := event_type,
          points_earned := points_earned,
          points_balance := current_balance + points_earned,
          status := .accrued, is_expired := false, created_at := now }
      .ok (db ++ [new_reward], new_reward)

/-- The allocation loop of redeem_rewards (api/rewards.py lines 250-265):
walk the fetched candidates, consume min(row points, remainder) from
each, and mark every touched row REDEEMED — also rows only partially
consumed.  Returns the ids of the rows marked and the points actually
consumed. -/
def allocate : List Reward → Int → Int → List Nat × Int
  | [], _, points_redeemed => ([], points_redeemed)
  | r :: rest, target, points_redeemed =>
    if points_redeemed ≥ target then ([], points_redeemed)
    else
      let take := min r.points_earned (target - points_redeemed)
      let (ids, final) := allocate rest target (points_redeemed + take)
      (r.id :: ids, final)

/-- POST /redeem of the ev-platform copy (api/rewards.py lines 207-299):
400 when available points (ACCRUED, not expired) are below the request;
fetch the candidate rows with limit(points_to_redeem // 100 + 1) and no
ORDER BY (list order here); run the allocation loop; flip the touched
rows to REDEEMED.  No debit row is appended, and the response reports
the requested amount as points_redeemed. -/
def redeem_rewards (db : List Reward) (uid : Nat) (points_to_redeem : Int) :
    Except EvError (List Reward × Int) :=
  let available := availablePoints db uid
  if available < points_to_redeem then .error .insufficientPoints
  else
    let candidates :=
      (db.filter (fun r => r.user_id == uid && r.status == RewardStatus.accrued && !r.is_expired)).take
        ((points_to_redeem.fdiv 100) + 1).toNat
    let (ids, _) := allocate candidates points_to_redeem 0
    let db1 := db.map (fun r => if ids.contains r.id then { r with status := .redeemed } else r)
    .ok (db1, points_to_redeem)

/-- One accrual request replayed through the ev-platform accrual route. -/
structure AccrualReq where
  event_type : String
  points_earned : Int
deriving Repr, DecidableEq

/-- Replay a list of accrual requests of one user through the accrual
route, all at instant `now`; a rejected request leaves the table
unchanged; row ids count up from `nextId`. -/
def runAccruals (rules : List RewardRule) (uid : Nat) (now todayStart monthStart : Int) :
    List AccrualReq → List Reward → Nat → List Reward
  | [], db, _ => db
  | req :: rest, db, nextId =>
    let db1 :=
      match create_reward_event rules db uid req.event_type req.points_earned
          now todayStart monthStart nextId with
      | .ok (db2, _) => db2
      | .error _ => db
    runAccruals rules uid now todayStart monthStart rest db1 (nextId + 1)

/-- The running-balance chain of the spec: starting from `prev`, each
row's points_balance equals the previous balance plus the row's own
points_earned. -/
def chainFrom (prev : Int) : List Reward → Prop
  | [] => True
  | r :: rest => r.points_balance = prev + r.points_earned ∧ chainFrom r.points_balance rest

/-- The balance the chain ends at: `prev` for an empty ledger, else the
last row's points_balance. -/
def chainEnd (prev : Int) : List Reward → Int
  | [] => prev
  | r :: rest => chainEnd r.points_balance rest

/-- Rows a replay of accrual requests through the ev-platform accrual
route can produce: they belong to the user, are accrued and not expired. -/
def mineAccrued (uid : Nat) (db : List Reward) : Prop :=
  ∀ r ∈ db, r.user_id = uid ∧ r.status = RewardStatus.accrued ∧ r.is_expired = false

end Ev


/-- Award computation in the order the spec describes it: the metadata
multiplier is applied to the base points first (floor-rounded), and the
proposed award is then clipped to the remaining daily headroom
max(0, cap - today_sum).  Written from the claim text, for comparison
with Backend.calculate_points. -/
def claimedCalculatePoints (event_type : String) (metadata : Option Backend.Meta) (uid : Nat)
    (db : List Backend.RewardEvent) (todayStart : Int) : Int :=
  let base_points := Backend.POINTS_RULES event_type
  if base_points ≤ 0 then 0
  else
    let proposed := Backend.applyMultiplier event_type metadata base_points
    match Backend.DAILY_CAPS event_type with
    | some cap => min proposed (max 0 (cap - Backend.todaySum db uid event_type todayStart))
    | none => proposed

namespace Backend

theorem sumBy_append {α : Type} (pts : α → Int) (P : α → Bool) (l : List α) (x : α) :
    sumBy pts P (l ++ [x]) = sumBy pts P l + (if P x then pts x else 0) := by
  unfold sumBy
  rw [List.filter_append]
  by_cases h : P x <;> simp [List.filter, h]

theorem sumBy_congr {α : Type} (pts : α → Int) (P Q : α → Bool) (l : List α)
    (h : ∀ x ∈ l, P x = Q x) : sumBy pts P l = sumBy pts Q l := by
  unfold sumBy
  rw [List.filter_congr h]

theorem applyMultiplier_none (event_type : String) (base_points : Int) :
    applyMultiplier event_type none base_points = base_points := by
  unfold applyMultiplier
  split_ifs <;> rfl

theorem calculate_tier_eq (b : Int) :
    calculate_tier b =
      if b ≥ 15000 then "platinum"
      else if b ≥ 5000 then "gold"
      else if b ≥ 1000 then "silver"
      else "bronze" := by
  unfold calculate_tier tierSearchOrder
  by_cases h1 : b ≥ 15000 <;> by_cases h2 : b ≥ 5000 <;> by_cases h3 : b ≥ 1000 <;>
    by_cases h4 : b ≥ 0 <;>
    simp [List.find?, TIER_THRESHOLDS, h1, h2, h3, h4]

theorem daily_cap_pos {event_type : String} {cap : Int}
    (h : DAILY_CAPS event_type = some cap) : 0 < cap := by
  rw [DAILY_CAPS.eq_def] at h
  split at h <;> simp_all <;> omega

/-- With a configured daily cap and no metadata, a positive award never
takes today's same-type total past the cap: the clip branch awards
exactly the headroom and the plain branch was guarded by the cap test. -/
theorem calculate_points_none_headroom (event_type : String) (uid : Nat)
    (db : List RewardEvent) (todayStart cap : Int)
    (hcap : DAILY_CAPS event_type = some cap)
    (hpos : 0 < calculate_points event_type none uid db todayStart) :
    todaySum db uid event_type todayStart +
      calculate_points event_type none uid db todayStart ≤ cap := by
  unfold calculate_points at *
  rw [hcap] at hpos ⊢
  simp only [applyMultiplier_none] at hpos ⊢
  split_ifs at hpos ⊢ <;> omega

/-- Shape of a successful accrual: the awarded points were positive, the
returned row carries them, and the row was appended to the events table. -/
theorem create_ok_shape (st : State) (uid : Nat) (et : String) (meta : Option Meta)
    (now ts : Int) (st2 : State) (ev : RewardEvent)
    (h : create_reward_event st uid et meta now ts = .ok (st2, ev)) :
    0 < calculate_points et meta uid st.events ts ∧
    ev = { user_id := uid, event_type := et,
           points_earned := calculate_points et meta uid st.events ts, created_at := now } ∧
    st2.events = st.events ++ [ev] := by
  unfold create_reward_event at h
  dsimp only at h
  split_ifs at h with hle htier
  all_goals
    first
    | exact Except.noConfusion h
    | · rw [Except.ok.injEq, Prod.mk.injEq] at h
        obtain ⟨h1, h2⟩ := h
        subst h1; subst h2
        exact ⟨by omega, rfl, rfl⟩

/-- Cap preservation along a replay of plain accruals: one accrual of a
capped event type with no metadata keeps today's same-type total within
the cap, so any number of them does. -/
theorem runOps_accrue_none_cap (uid : Nat) (event_type : String) (cap now todayStart : Int)
    (hcap : DAILY_CAPS event_type = some cap) (hnow : todayStart ≤ now) :
    ∀ (n : Nat) (st : State),
      todaySum st.events uid event_type todayStart ≤ cap →
      todaySum (runOps uid now todayStart
          (List.replicate n (Op.accrue event_type none)) st).events
        uid event_type todayStart ≤ cap := by
  intro n
  induction n with
  | zero => intro st hst; simpa [runOps] using hst
  | succ n ih =>
    intro st hst
    rw [List.replicate_succ]
    unfold runOps
    rcases hok : create_reward_event st uid event_type none now todayStart with he | ⟨st2, ev⟩
    · simpa [hok] using ih st hst
    · simp only [hok]
      apply ih
      obtain ⟨hpos, hev, hevents⟩ :=
        create_ok_shape st uid event_type none now todayStart st2 ev hok
      rw [hevents, hev]
      simp only [todaySum] at hst ⊢
      rw [sumBy_append]
      have hhead := calculate_points_none_headroom event_type uid st.events todayStart cap
        hcap hpos
      simp only [todaySum] at hhead
      rw [if_pos (by simp [hnow, ge_iff_le])]
      dsimp only
      omega

end Backend

namespace Ev

theorem chainEnd_append (p : Int) (db : List Reward) (r : Reward) :
    chainEnd p (db ++ [r]) = r.points_balance := by
  induction db generalizing p with
  | nil => rfl
  | cons x rest ih => simpa [chainEnd] using ih x.points_balance

theorem chainFrom_append (p : Int) (db : List Reward) (r : Reward)
    (h : chainFrom p db)
    (hr : r.points_balance = chainEnd p db + r.points_earned) :
    chainFrom p (db ++ [r]) := by
  induction db generalizing p with
  | nil => exact ⟨hr, trivial⟩
  | cons x rest ih =>
    obtain ⟨hx, hrest⟩ := h
    exact ⟨hx, ih x.points_balance hrest hr⟩

theorem accruedSum_eq_of_mine (uid : Nat) (db : List Reward) (h : mineAccrued uid db) :
    accruedSum db uid = replaySum db uid := by
  unfold accruedSum replaySum
  apply Backend.sumBy_congr
  intro r hr
  obtain ⟨h1, h2, _⟩ := h r hr
  simp [h1, h2]

theorem availablePoints_eq_of_mine (uid : Nat) (db : List Reward) (h : mineAccrued uid db) :
    availablePoints db uid = replaySum db uid := by
  unfold availablePoints replaySum
  apply Backend.sumBy_congr
  intro r hr
  obtain ⟨h1, h2, h3⟩ := h r hr
  simp [h1, h2, h3]

/-- Invariant of accrual-only replays through the ev-platform accrual
route: every row is the user's, accrued and unexpired; the
points_balance snapshots form the running-balance chain; and the ACCRUED
sum the route reads equals the balance the chain ends at. -/
theorem runAccruals_invariant (rules : List RewardRule) (uid : Nat)
    (now todayStart monthStart : Int) :
    ∀ (reqs : List AccrualReq) (db : List Reward) (nextId : Nat),
      mineAccrued uid db → chainFrom 0 db → accruedSum db uid = chainEnd 0 db →
      mineAccrued uid (runAccruals rules uid now todayStart monthStart reqs db nextId) ∧
      chainFrom 0 (runAccruals rules uid now todayStart monthStart reqs db nextId) ∧
      accruedSum (runAccruals rules uid now todayStart monthStart reqs db nextId) uid =
        chainEnd 0 (runAccruals rules uid now todayStart monthStart reqs db nextId) := by
  intro reqs
  induction reqs with
  | nil => intro db nextId h1 h2 h3; exact ⟨h1, h2, h3⟩
  | cons req rest ih =>
    intro db nextId h1 h2 h3
    unfold runAccruals
    rcases hok : create_reward_event rules db uid req.event_type req.points_earned
        now todayStart monthStart nextId with he | ⟨db2, ev⟩
    · simp only [hok]
      exact ih db (nextId + 1) h1 h2 h3
    · simp only [hok]
      have hdb2 : db2 = db ++
          [{ id := nextId, user_id := uid, event_type := req.event_type,
             points_earned := req.points_earned,
             points_balance := accruedSum db uid + req.points_earned,
             status := .accrued, is_expired := false, created_at := now }] := by
        unfold create_reward_event at hok
        split at hok
        · exact Except.noConfusion hok
        · dsimp only at hok
          split_ifs at hok
          all_goals
            first
            | exact Except.noConfusion hok
            | (rw [Except.ok.injEq, Prod.mk.injEq] at hok; exact hok.1.symm)
      subst hdb2
      apply ih
      · intro r hr
        rcases List.mem_append.mp hr with hin | hnew
        · exact h1 r hin
        · simp at hnew
          subst hnew
          exact ⟨rfl, rfl, rfl⟩
      · exact chainFrom_append _ _ _ h2 (by dsimp only; rw [h3])
      · rw [chainEnd_append]
        unfold accruedSum at h3 ⊢
        rw [Backend.sumBy_append]
        dsimp only
        simp

end Ev

/-- C8: calculate_tier is a pure function over the fixed ascending
threshold table (0 / 1000 / 5000 / 15000): repeated application to the
same input is equal, and the tier rank is non-decreasing in the balance. -/
theorem tier_for_deterministic_and_monotone (x y : Int) (h : x ≤ y) :
    Backend.calculate_tier x = Backend.calculate_tier x ∧
    Backend.tierRank (Backend.calculate_tier x) ≤ Backend.tierRank (Backend.calculate_tier y) := by
  refine ⟨rfl, ?_⟩
  rw [Backend.calculate_tier_eq, Backend.calculate_tier_eq]
  split_ifs <;> first | decide | (exfalso; omega)

theorem tier_for_deterministic_and_monotone_witness :
    (500 : Int) ≤ 5000 ∧
    Backend.tierRank (Backend.calculate_tier 500) ≤ Backend.tierRank (Backend.calculate_tier 5000) :=
  ⟨by decide, (tier_for_deterministic_and_monotone 500 5000 (by decide)).2⟩

/-- C10: the redemption request schema does not validate sign, and
redeem_points only checks balance < points; redeeming -50 against a
balance of 40 succeeds and leaves the balance at 90 = 40 - (-50),
a strict increase. -/
theorem redeem_negative_points_increases_balance :
    Backend.redeem_points
        { account := some { points_balance := 40, tier := "bronze" }, events := [] } 1 (-50) 0 =
      .ok ({ account := some { points_balance := 90, tier := "bronze" }, events := [] },
           { success := true, points_redeemed := -50, new_balance := 90 }) ∧
    (90 : Int) = 40 - (-50) ∧ (40 : Int) < 90 :=
  ⟨rfl, by decide, by decide⟩

/-- C9: with at least 5 points_redeemed rows of the user within the
trailing hour, the next redemption attempt (with sufficient balance) is
denied with the velocity reason; with fewer than 5 such rows and a
trailing-24h sum of at most 1000, check_fraud allows. -/
theorem fraud_velocity_gate (st : Backend.State) (uid : Nat) (N now : Int)
    (acct : Backend.RewardAccount) (hacct : st.account = some acct)
    (hbal : N ≤ acct.points_balance) :
    (Backend.recentRedemptionCount st.events uid now ≥ 5 →
      Backend.redeem_points st uid N now =
        .error (.fraudBlocked (some "Too many redemptions in short time"))) ∧
    (Backend.recentRedemptionCount st.events uid now < 5 →
     Backend.dailyPointsSum st.events uid now ≤ 1000 →
      Backend.check_fraud uid st.events now = { is_fraud := false, reason := none }) := by
  constructor
  · intro h5
    unfold Backend.redeem_points
    rw [hacct]
    dsimp only
    rw [if_neg (by omega)]
    have hfc : Backend.check_fraud uid st.events now =
        { is_fraud := true, reason := some "Too many redemptions in short time" } := by
      unfold Backend.check_fraud
      rw [if_pos h5]
    rw [hfc]
    rfl
  · intro h5 hvol
    unfold Backend.check_fraud
    rw [if_neg (by omega), if_neg (by omega)]

theorem fraud_velocity_gate_witness :
    Backend.redeem_points
        { account := some { points_balance := 100, tier := "bronze" },
          events :=
            [{ user_id := 1, event_type := "points_redeemed", points_earned := 0, created_at := -2700 },
             { user_id := 1, event_type := "points_redeemed", points_earned := 0, created_at := -2700 },
             { user_id := 1, event_type := "points_redeemed", points_earned := 0, created_at := -2700 },
             { user_id := 1, event_type := "points_redeemed", points_earned := 0, created_at := -2700 },
             { user_id := 1, event_type := "points_redeemed", points_earned := 0, created_at := -2700 }] }
        1 50 0 =
      .error (.fraudBlocked (some "Too many redemptions in short time")) :=
  (fraud_velocity_gate
      { account := some { points_balance := 100, tier := "bronze" },
        events :=
          [{ user_id := 1, event_type := "points_redeemed", points_earned := 0, created_at := -2700 },
           { user_id := 1, event_type := "points_redeemed", points_earned := 0, created_at := -2700 },
           { user_id := 1, event_type := "points_redeemed", points_earned := 0, created_at := -2700 },
           { user_id := 1, event_type := "points_redeemed", points_earned := 0, created_at := -2700 },
           { user_id := 1, event_type := "points_redeemed", points_earned := 0, created_at := -2700 }] }
      1 50 0 { points_balance := 100, tier := "bronze" } rfl (by decide)).1 (by decide)

/-- C5 counterexample: for an event type with no matching rule the route
raises HTTPException 400 (No points earned for this event) — an error to
the caller, not a zero-point no-op result. -/
theorem no_rule_accrual_is_rejected :
    Backend.POINTS_RULES "unknown_event" = 0 ∧
    Backend.create_reward_event { account := none, events := [] } 1 "unknown_event" none 0 0 =
      .error .noPointsEarned :=
  ⟨rfl, rfl⟩

/-- C5 (amended): the service-level calculator returns 0 — without
raising — for an event type with no rule, but the route then rejects the
request with 400 instead of recording a zero-point no-op. -/
theorem no_rule_zero_points_route_rejects (st : Backend.State) (uid : Nat) (et : String)
    (meta : Option Backend.Meta) (now ts : Int) (h : Backend.POINTS_RULES et = 0) :
    Backend.calculate_points et meta uid st.events ts = 0 ∧
    Backend.create_reward_event st uid et meta now ts = .error .noPointsEarned := by
  have hcp : Backend.calculate_points et meta uid st.events ts = 0 := by
    unfold Backend.calculate_points
    rw [h]
    simp
  refine ⟨hcp, ?_⟩
  unfold Backend.create_reward_event
  dsimp only
  rw [hcp]
  simp

theorem no_rule_zero_points_route_rejects_witness :
    Backend.calculate_points "unknown_event" none 1
        ({ account := none, events := [] } : Backend.State).events 0 = 0 ∧
    Backend.create_reward_event { account := none, events := [] } 1 "unknown_event" none 0 0 =
      .error .noPointsEarned :=
  no_rule_zero_points_route_rejects { account := none, events := [] } 1 "unknown_event" none 0 0 rfl

/-- C2 (amended): when the account exists, a request of N at most the
balance that passes the fraud gate succeeds and leaves the balance at
exactly B - N with the events table untouched (redeem_points never
writes ledger rows); a request of N above the balance fails with the
insufficient-balance error, mutating nothing. -/
theorem redeem_points_conservation (st : Backend.State) (uid : Nat) (N now : Int)
    (acct : Backend.RewardAccount) (hacct : st.account = some acct) :
    (N ≤ acct.points_balance →
     (Backend.check_fraud uid st.events now).is_fraud = false →
      Backend.redeem_points st uid N now =
        .ok ({ st with account := some { acct with points_balance := acct.points_balance - N } },
             { success := true, points_redeemed := N,
               new_balance := acct.points_balance - N })) ∧
    (acct.points_balance < N →
      Backend.redeem_points st uid N now = .error .insufficientBalance) := by
  constructor
  · intro hN hf
    unfold Backend.redeem_points
    rw [hacct]
    dsimp only
    rw [if_neg (by omega), if_neg (by rw [hf]; exact Bool.false_ne_true)]
  · intro hlt
    unfold Backend.redeem_points
    rw [hacct]
    dsimp only
    rw [if_pos hlt]

theorem redeem_points_conservation_witness :
    Backend.redeem_points
        { account := some { points_balance := 100, tier := "silver" }, events := [] } 1 40 0 =
      .ok ({ account := some { points_balance := 100 - 40, tier := "silver" }, events := [] },
           { success := true, points_redeemed := 40, new_balance := 100 - 40 }) :=
  (redeem_points_conservation
      { account := some { points_balance := 100, tier := "silver" }, events := [] } 1 40 0
      { points_balance := 100, tier := "silver" } rfl).1 (by decide) (by decide)

/-- C2 counterexample: a user whose ledger holds 5 recent redemption
rows has the next redemption denied by the fraud gate even though the
requested amount is within the available balance, so a redemption with
N at most B does not always succeed. -/
theorem redeem_blocked_despite_sufficient_balance :
    (50 : Int) ≤ 100 ∧
    Backend.redeem_points
        { account := some { points_balance := 100, tier := "gold" },
          events :=
            [{ user_id := 1, event_type := "points_redeemed", points_earned := 0, created_at := -600 },
             { user_id := 1, event_type := "points_redeemed", points_earned := 0, created_at := -600 },
             { user_id := 1, event_type := "points_redeemed", points_earned := 0, created_at := -600 },
             { user_id := 1, event_type := "points_redeemed", points_earned := 0, created_at := -600 },
             { user_id := 1, event_type := "points_redeemed", points_earned := 0, created_at := -600 }] }
        1 50 0 =
      .error (.fraudBlocked (some "Too many redemptions in short time")) :=
  ⟨by decide, rfl⟩

set_option maxRecDepth 8000 in
/-- C1 counterexample: 49 plain ride accruals (10 points each) reach a
same-day total of 490; the next ride with scooter metadata passes the
cap test (490 + 10 is not above 500) and is then awarded
int(10 * 1.2) = 12 points with no re-clip, taking the daily total for
ride_completed to 502, beyond the configured cap of 500. -/
theorem daily_total_exceeds_cap_with_multiplier :
    Backend.DAILY_CAPS "ride_completed" = some 500 ∧
    Backend.todaySum
        (Backend.runOps 1 0 0
          (List.replicate 49 (Backend.Op.accrue "ride_completed" none) ++
            [Backend.Op.accrue "ride_completed" (some { vehicle_type := some "scooter" })])
          { account := none, events := [] }).events
        1 "ride_completed" 0 = 502 ∧
    (500 : Int) < 502 := by
  refine ⟨rfl, ?_, by decide⟩
  decide

/-- C1 (amended): for an event type with a configured daily cap,
repeated accruals carrying no metadata (so no multiplier applies) keep
the total points awarded for that event type within the UTC day at or
below the cap, each award being clipped to the remaining headroom; a
zero-point result is rejected by the route with 400 rather than
recorded, and (per the counterexample) a metadata multiplier can push
the total past the cap because the cap test uses pre-multiplier base
points. -/
theorem repeated_accrual_within_daily_cap (uid : Nat) (event_type : String)
    (cap now todayStart : Int) (n : Nat)
    (hcap : Backend.DAILY_CAPS event_type = some cap) (hnow : todayStart ≤ now) :
    Backend.todaySum
        (Backend.runOps uid now todayStart
          (List.replicate n (Backend.Op.accrue event_type none))
          { account := none, events := [] }).events
        uid event_type todayStart ≤ cap := by
  apply Backend.runOps_accrue_none_cap uid event_type cap now todayStart hcap hnow n
  have := Backend.daily_cap_pos hcap
  simp [Backend.todaySum, Backend.sumBy]
  omega

theorem repeated_accrual_within_daily_cap_witness :
    Backend.todaySum
        (Backend.runOps 1 0 0 (List.replicate 3 (Backend.Op.accrue "ride_completed" none))
          { account := none, events := [] }).events 1 "ride_completed" 0 ≤ 500 :=
  repeated_accrual_within_daily_cap 1 "ride_completed" 500 0 0 3 rfl (by decide)

/-- C6 counterexample: at a same-day total of 490 under the 500 cap, the
claimed order (multiplier 1.2 on base 10 giving 12, then clip to the
headroom of 10) yields 10, but calculate_points returns 12 — the cap
test compares base points before the multiplier and the multiplied
award is never clipped, exceeding the remaining headroom. -/
theorem multiplier_not_clipped_by_cap :
    Backend.calculate_points "ride_completed" (some { vehicle_type := some "scooter" }) 1
        [{ user_id := 1, event_type := "ride_completed", points_earned := 490, created_at := 0 }]
        0 = 12 ∧
    claimedCalculatePoints "ride_completed" (some { vehicle_type := some "scooter" }) 1
        [{ user_id := 1, event_type := "ride_completed", points_earned := 490, created_at := 0 }]
        0 = 10 ∧
    (12 : Int) ≠ 10 ∧
    Backend.todaySum
        [{ user_id := 1, event_type := "ride_completed", points_earned := 490, created_at := 0 }]
        1 "ride_completed" 0 + 12 > 500 :=
  ⟨rfl, rfl, by decide, by decide⟩

/-- C6 (amended): with a configured daily cap and a positive base, the
cap comparison runs first against the pre-multiplier base points: when
today's total plus the base exceeds the cap the award is
max(0, cap - today's total) and the multiplier block is skipped;
otherwise the award is the multiplied base with no cap clip. -/
theorem cap_check_before_multiplier (event_type : String) (metadata : Option Backend.Meta)
    (uid : Nat) (db : List Backend.RewardEvent) (todayStart cap : Int)
    (hcap : Backend.DAILY_CAPS event_type = some cap)
    (hbase : 0 < Backend.POINTS_RULES event_type) :
    (Backend.todaySum db uid event_type todayStart + Backend.POINTS_RULES event_type > cap →
      Backend.calculate_points event_type metadata uid db todayStart =
        max 0 (cap - Backend.todaySum db uid event_type todayStart)) ∧
    (Backend.todaySum db uid event_type todayStart + Backend.POINTS_RULES event_type ≤ cap →
      Backend.calculate_points event_type metadata uid db todayStart =
        Backend.applyMultiplier event_type metadata (Backend.POINTS_RULES event_type)) := by
  constructor
  · intro h
    unfold Backend.calculate_points
    rw [hcap]
    dsimp only
    rw [if_neg (by omega), if_pos h]
  · intro h
    unfold Backend.calculate_points
    rw [hcap]
    dsimp only
    rw [if_neg (by omega), if_neg (by omega)]

theorem cap_check_before_multiplier_witness :
    Backend.calculate_points "ride_completed" (some { vehicle_type := some "scooter" }) 1
        [{ user_id := 1, event_type := "ride_completed", points_earned := 495, created_at := 0 }]
        0 =
      max 0 (500 - Backend.todaySum
        [{ user_id := 1, event_type := "ride_completed", points_earned := 495, created_at := 0 }]
        1 "ride_completed" 0) :=
  (cap_check_before_multiplier "ride_completed" (some { vehicle_type := some "scooter" }) 1
      [{ user_id := 1, event_type := "ride_completed", points_earned := 495, created_at := 0 }]
      0 500 rfl (by decide)).1 (by decide)

/-- C3: evaluation of the redemption of 120 points against three accrued
rows of 100, 50 and 30 points (oldest first).  The loop consumes 100
from the first row and only 20 of the second row's 50, yet marks both
rows REDEEMED — the partially consumed row does not keep its accrued
status — and appends no debit row (the table still has exactly the same
3 rows), so the available balance drops to 30 instead of 60. -/
theorem redeem_marks_partial_row_and_appends_no_debit :
    Ev.redeem_rewards
        [{ id := 1, user_id := 1, event_type := "ride_completed", points_earned := 100,
           points_balance := 100, status := .accrued, is_expired := false, created_at := 10 },
         { id := 2, user_id := 1, event_type := "ride_completed", points_earned := 50,
           points_balance := 150, status := .accrued, is_expired := false, created_at := 20 },
         { id := 3, user_id := 1, event_type := "ride_completed", points_earned := 30,
           points_balance := 180, status := .accrued, is_expired := false, created_at := 30 }]
        1 120 =
      .ok ([{ id := 1, user_id := 1, event_type := "ride_completed", points_earned := 100,
              points_balance := 100, status := .redeemed, is_expired := false, created_at := 10 },
            { id := 2, user_id := 1, event_type := "ride_completed", points_earned := 50,
              points_balance := 150, status := .redeemed, is_expired := false, created_at := 20 },
            { id := 3, user_id := 1, event_type := "ride_completed", points_earned := 30,
              points_balance := 180, status := .accrued, is_expired := false, created_at := 30 }],
           120) ∧
    Ev.availablePoints
        [{ id := 1, user_id := 1, event_type := "ride_completed", points_earned := 100,
           points_balance := 100, status := .redeemed, is_expired := false, created_at := 10 },
         { id := 2, user_id := 1, event_type := "ride_completed", points_earned := 50,
           points_balance := 150, status := .redeemed, is_expired := false, created_at := 20 },
         { id := 3, user_id := 1, event_type := "ride_completed", points_earned := 30,
           points_balance := 180, status := .accrued, is_expired := false, created_at := 30 }]
        1 = 30 ∧
    (180 : Int) - 120 = 60 ∧ (30 : Int) ≠ 60 :=
  ⟨rfl, rfl, by decide, by decide⟩

/-- C4 counterexample: accrue 100, redeem it, accrue 50.  The second
accrual's points_balance snapshot is 50 (the sum of currently ACCRUED
rows plus its delta), not the previous row's balance_after 100 plus the
delta (150); and replaying all rows sums to 150 while the
independently computed available points are 50, because redemption
flips statuses without appending any debit row. -/
theorem balance_snapshot_chain_broken :
    Ev.create_reward_event
        [{ id := 1, event_type := "referral", points_per_event := 200, daily_cap := none,
           monthly_cap := none, is_active := true, priority := 1 }]
        [] 1 "referral" 100 0 0 0 1 =
      .ok ([{ id := 1, user_id := 1, event_type := "referral", points_earned := 100,
              points_balance := 100, status := .accrued, is_expired := false, created_at := 0 }],
           { id := 1, user_id := 1, event_type := "referral", points_earned := 100,
             points_balance := 100, status := .accrued, is_expired := false, created_at := 0 }) ∧
    Ev.redeem_rewards
        [{ id := 1, user_id := 1, event_type := "referral", points_earned := 100,
           points_balance := 100, status := .accrued, is_expired := false, created_at := 0 }] 1 100 =
      .ok ([{ id := 1, user_id := 1, event_type := "referral", points_earned := 100,
              points_balance := 100, status := .redeemed, is_expired := false, created_at := 0 }],
           100) ∧
    Ev.create_reward_event
        [{ id := 1, event_type := "referral", points_per_event := 200, daily_cap := none,
           monthly_cap := none, is_active := true, priority := 1 }]
        [{ id := 1, user_id := 1, event_type := "referral", points_earned := 100,
           points_balance := 100, status := .redeemed, is_expired := false, created_at := 0 }]
        1 "referral" 50 0 0 0 2 =
      .ok ([{ id := 1, user_id := 1, event_type := "referral", points_earned := 100,
              points_balance := 100, status := .redeemed, is_expired := false, created_at := 0 },
            { id := 2, user_id := 1, event_type := "referral", points_earned := 50,
              points_balance := 50, status := .accrued, is_expired := false, created_at := 0 }],
           { id := 2, user_id := 1, event_type := "referral", points_earned := 50,
             points_balance := 50, status := .accrued, is_expired := false, created_at := 0 }) ∧
    (50 : Int) ≠ 100 + 50 ∧
    Ev.replaySum
        [{ id := 1, user_id := 1, event_type := "referral", points_earned := 100,
           points_balance := 100, status := .redeemed, is_expired := false, created_at := 0 },
         { id := 2, user_id := 1, event_type := "referral", points_earned := 50,
           points_balance := 50, status := .accrued, is_expired := false, created_at := 0 }] 1 = 150 ∧
    Ev.availablePoints
        [{ id := 1, user_id := 1, event_type := "referral", points_earned := 100,
           points_balance := 100, status := .redeemed, is_expired := false, created_at := 0 },
         { id := 2, user_id := 1, event_type := "referral", points_earned := 50,
           points_balance := 50, status := .accrued, is_expired := false, created_at := 0 }] 1 = 50 ∧
    (150 : Int) ≠ 50 :=
  ⟨rfl, rfl, rfl, by decide, rfl, rfl, by decide⟩

/-- C4 (amended): for accrual-only histories replayed through the
ev-platform accrual route, the balance_after snapshots do form the
running chain from 0 and replaying all rows equals the independently
computed available points; the chain and the replay equality are broken
only once redemptions intervene, as the counterexample shows. -/
theorem accrual_only_replay_reconciles (rules : List Ev.RewardRule) (uid : Nat)
    (now todayStart monthStart : Int) (reqs : List Ev.AccrualReq) (nextId : Nat) :
    Ev.chainFrom 0 (Ev.runAccruals rules uid now todayStart monthStart reqs [] nextId) ∧
    Ev.replaySum (Ev.runAccruals rules uid now todayStart monthStart reqs [] nextId) uid =
      Ev.availablePoints (Ev.runAccruals rules uid now todayStart monthStart reqs [] nextId) uid := by
  obtain ⟨h1, h2, h3⟩ :=
    Ev.runAccruals_invariant rules uid now todayStart monthStart reqs [] nextId
      (by intro r hr; cases hr) trivial rfl
  exact ⟨h2, (Ev.availablePoints_eq_of_mine uid _ h1).symm⟩

/-- C7 counterexample: five referral accruals reach balance 1000 and
tier silver; after redeeming 600 the next accrual recomputes the tier
from the reduced balance 600 and stores bronze, while the same six
accruals without the redemption give balance 1200 and tier silver.  The
lifetime sum of positive deltas is 1200 in both runs and maps to
silver, so the stored tier does depend on past redemptions. -/
theorem tier_changed_by_redemption :
    (Backend.runOps 1 0 0
        (List.replicate 5 (Backend.Op.accrue "referral" none) ++
          [Backend.Op.redeem 600, Backend.Op.accrue "referral" none])
        { account := none, events := [] }).account =
      some { points_balance := 600, tier := "bronze" } ∧
    Backend.lifetimePoints
        (Backend.runOps 1 0 0
          (List.replicate 5 (Backend.Op.accrue "referral" none) ++
            [Backend.Op.redeem 600, Backend.Op.accrue "referral" none])
          { account := none, events := [] }).events 1 = 1200 ∧
    (Backend.runOps 1 0 0 (List.replicate 6 (Backend.Op.accrue "referral" none))
        { account := none, events := [] }).account =
      some { points_balance := 1200, tier := "silver" } ∧
    Backend.calculate_tier 1200 = "silver" ∧
    ("bronze" : String) ≠ "silver" :=
  ⟨rfl, rfl, rfl, rfl, by decide⟩

/-- C7 (amended): the redemption route only subtracts from
points_balance, leaving the stored tier field untouched, and each
successful accrual recomputes the stored tier from the account's
updated current balance (accruals minus redemptions), not from the
lifetime sum of positive deltas. -/
theorem tier_recomputed_from_current_balance (st : Backend.State) (uid : Nat) (N now : Int)
    (acct : Backend.RewardAccount) (hacct : st.account = some acct) :
    (∀ st2 resp, Backend.redeem_points st uid N now = .ok (st2, resp) →
      st2.account = some { acct with points_balance := acct.points_balance - N }) ∧
    (∀ et meta ts st2 ev, Backend.create_reward_event st uid et meta now ts = .ok (st2, ev) →
      ∃ acct2, st2.account = some acct2 ∧
        acct2.tier = Backend.calculate_tier acct2.points_balance) := by
  constructor
  · intro st2 resp h
    unfold Backend.redeem_points at h
    rw [hacct] at h
    dsimp only at h
    split_ifs at h
    all_goals
      first
      | exact Except.noConfusion h
      | · rw [Except.ok.injEq, Prod.mk.injEq] at h
          obtain ⟨h1, h2⟩ := h
          subst h1
          rfl
  · intro et meta ts st2 ev h
    unfold Backend.create_reward_event at h
    dsimp only at h
    split_ifs at h with hle htier
    all_goals
      first
      | exact Except.noConfusion h
      | · rw [Except.ok.injEq, Prod.mk.injEq] at h
          obtain ⟨h1, h2⟩ := h
          subst h1
          exact ⟨_, rfl, rfl⟩
      | · rw [Except.ok.injEq, Prod.mk.injEq] at h
          obtain ⟨h1, h2⟩ := h
          subst h1
          refine ⟨_, rfl, ?_⟩
          dsimp only
          exact (not_ne_iff.mp htier).symm

theorem tier_recomputed_from_current_balance_witness :
    ({ account := some { points_balance := 400, tier := "silver" }, events := [] } :
        Backend.State).account =
      some { points_balance := 1000 - 600, tier := "silver" } :=
  (tier_recomputed_from_current_balance
      { account := some { points_balance := 1000, tier := "silver" }, events := [] } 1 600 0
      { points_balance := 1000, tier := "silver" } rfl).1
    { account := some { points_balance := 400, tier := "silver" }, events := [] }
    { success := true, points_redeemed := 600, new_balance := 400 } rfl
